import Mathlib

/-!
Verification development for the voice-agent session runtime.

The definitions below are shallow embeddings of the TypeScript sources of the
repository: the per-call state machine, the conversation model, the
interruption detector, the audio controller, the solo voice agent, the
conference session with its response gatekeeper, and the session registry.
Machine timestamps are modelled as integers (JavaScript Date.now values),
byte buffers as lists of naturals below 256, and external collaborators
(the language service, the speech service, the telephony WebSocket) as
explicit oracle parameters and effect traces.
-/

/-! ## State machine (src/src/core/StateMachine.ts) -/

/-- Call phases of the voice agent (enum AgentState). -/
inductive AgentState
  | IDLE
  | LISTENING
  | THINKING
  | SPEAKING
  | INTERRUPTED
deriving DecidableEq, Repr

/-- One entry of the transition history (type StateTransition). The source
field named from is spelled fromState here because from is a Lean keyword. -/
structure StateTransition where
  fromState : AgentState
  toState : AgentState
  timestamp : Int
  reason : Option String
deriving DecidableEq, Repr

/-- The mutable state of class VoiceAgentStateMachine: the current state and
the ordered transition log. Listener callbacks are modelled at the call sites
that register them (see VoiceAgent.doTransition below). -/
structure VoiceAgentStateMachine where
  currentState : AgentState
  transitions : List StateTransition
deriving DecidableEq, Repr

/-- The validTransitions table of canTransitionTo (StateMachine.ts lines
37 to 43), row by row. -/
def validTransitions : AgentState → List AgentState
  | .IDLE => [.LISTENING]
  | .LISTENING => [.THINKING, .IDLE]
  | .THINKING => [.SPEAKING, .LISTENING, .IDLE]
  | .SPEAKING => [.LISTENING, .INTERRUPTED, .IDLE]
  | .INTERRUPTED => [.LISTENING, .IDLE]

/-- canTransitionTo (StateMachine.ts lines 36 to 46). -/
def VoiceAgentStateMachine.canTransitionTo (m : VoiceAgentStateMachine)
    (newState : AgentState) : Bool :=
  (validTransitions m.currentState).contains newState

/-- transition (StateMachine.ts lines 48 to 71): on a legal target the state
is replaced, one entry is appended to the log and true is returned; otherwise
the machine is untouched and false is returned (a console warning only). The
source parameter named to is spelled target here, to being a Lean token. -/
def VoiceAgentStateMachine.transition (m : VoiceAgentStateMachine)
    (target : AgentState) (now : Int) (reason : Option String) :
    VoiceAgentStateMachine × Bool :=
  if m.canTransitionTo target then
    ({ currentState := target,
       transitions := m.transitions ++ [⟨m.currentState, target, now, reason⟩] },
     true)
  else
    (m, false)

/-- Legality table exactly as the claim reads section 4.1 of the spec: the
row "any to IDLE" is taken to make IDLE reachable from every state, the
state IDLE itself included. Written from the claim wording, for comparison
against canTransitionTo. -/
def specLegal41 : AgentState → AgentState → Bool
  | .IDLE, .LISTENING => true
  | .LISTENING, .THINKING => true
  | .THINKING, .SPEAKING => true
  | .THINKING, .LISTENING => true
  | .SPEAKING, .LISTENING => true
  | .SPEAKING, .INTERRUPTED => true
  | .INTERRUPTED, .LISTENING => true
  | _, .IDLE => true
  | _, _ => false

/-- The section 4.1 table as the code actually implements it: identical to
specLegal41 except that the row "any to IDLE" covers only the four states
other than IDLE, so the machine has no IDLE self loop. -/
def codeLegal41 (s t : AgentState) : Bool :=
  specLegal41 s t && !(s = AgentState.IDLE && t = AgentState.IDLE)

/-- C3 counterexample: the claim asserts that the teardown row makes IDLE
reachable from IDLE itself, so transition from IDLE to IDLE should succeed
and append one history entry; the code rejects it, returns false, and leaves
both the state and the history untouched. -/
theorem stateMachine_idle_self_loop_rejected :
    specLegal41 AgentState.IDLE AgentState.IDLE = true ∧
    (VoiceAgentStateMachine.transition ⟨AgentState.IDLE, []⟩ AgentState.IDLE 0 none).2 = false ∧
    (VoiceAgentStateMachine.transition ⟨AgentState.IDLE, []⟩ AgentState.IDLE 0 none).1 =
      ⟨AgentState.IDLE, []⟩ := by
  refine ⟨rfl, ?_, ?_⟩ <;> decide

/-- C3 amended: transition succeeds, sets the state to the target and appends
exactly one history entry precisely when the pair is legal per the section 4.1
table with the "any to IDLE" row restricted to non-IDLE sources; an illegal
pair yields false with the machine (state and history) unchanged. -/
theorem stateMachine_transition_table (s : AgentState) (hist : List StateTransition)
    (t : AgentState) (now : Int) (r : Option String) :
    VoiceAgentStateMachine.transition ⟨s, hist⟩ t now r =
      if codeLegal41 s t then
        (⟨t, hist ++ [⟨s, t, now, r⟩]⟩, true)
      else
        (⟨s, hist⟩, false) := by
  cases s <;> cases t <;>
    simp [VoiceAgentStateMachine.transition, VoiceAgentStateMachine.canTransitionTo,
      validTransitions, codeLegal41, specLegal41, List.contains]

/-! ## Conversation model (src/src/core/ConversationManager.ts, the
conference-capable class at the top of the file) -/

/-- Speaker labels (enum Speaker). The source enum values are the lower case
strings caller, owner, assistant. -/
inductive Speaker
  | CALLER
  | OWNER
  | ASSISTANT
deriving DecidableEq, Repr

/-- The result of speaker.toUpperCase() on the enum value, used for the
conference message prefix. -/
def Speaker.upper : Speaker → String
  | .CALLER => "CALLER"
  | .OWNER => "OWNER"
  | .ASSISTANT => "ASSISTANT"

/-- One conversation entry. The source stores ModelMessage values from the ai
SDK; the claims under proof only inspect the role and the flat text content,
so structured tool content is not modelled. -/
structure Message where
  role : String
  content : String
deriving DecidableEq, Repr

/-- The mutable state of class ConversationManager (the conference-capable
class): the ordered log, the in-progress assistant buffer, the conference
flag and the two lazily established diarization bindings. -/
structure ConversationManager where
  messages : List Message
  currentAssistantMessage : String
  conferenceMode : Bool
  callerSpeakerId : Option Nat
  ownerSpeakerId : Option Nat
deriving DecidableEq, Repr

/-- A freshly constructed ConversationManager. -/
def ConversationManager.empty : ConversationManager :=
  ⟨[], "", false, none, none⟩

/-- The message content computed at ConversationManager.ts lines 85 to 87:
in conference mode with a resolved speaker the text is prefixed with the
upper case speaker tag. -/
def confContent (conferenceMode : Bool) (speaker : Option Speaker)
    (content : String) : String :=
  match conferenceMode, speaker with
  | true, some s => "[" ++ s.upper ++ "]: " ++ content
  | _, _ => content

/-- addUserMessage (ConversationManager.ts lines 53 to 98) for a numeric or
absent diarization speaker id. The source takes a union argument and
dispatches on its runtime type; the branch for an explicit Speaker enum value
is embedded separately as addUserMessageWithSpeaker. Lines 63 to 82: in
conference mode the first id observed is bound to the caller slot, an id
equal to the caller binding resolves to CALLER, and any other id resolves to
OWNER, binding the owner slot only when it is still empty. -/
def ConversationManager.addUserMessageWithId (c : ConversationManager)
    (content : String) (speakerId : Option Nat) : ConversationManager :=
  let step : ConversationManager × Option Speaker :=
    match speakerId with
    | some sid =>
      if c.conferenceMode then
        match c.callerSpeakerId with
        | none => ({ c with callerSpeakerId := some sid }, some Speaker.CALLER)
        | some cid =>
          if sid = cid then (c, some Speaker.CALLER)
          else
            match c.ownerSpeakerId with
            | none => ({ c with ownerSpeakerId := some sid }, some Speaker.OWNER)
            | some _ => (c, some Speaker.OWNER)
      else (c, none)
    | none => (c, none)
  let c1 := step.1
  { c1 with
    messages := c1.messages ++
      [⟨"user", confContent c1.conferenceMode step.2 content⟩] }

/-- addUserMessage (ConversationManager.ts lines 53 to 98) for an explicit
Speaker enum argument (the branch at lines 58 to 61, used by
ConferenceSession, which only ever passes CALLER or OWNER): the speaker is
taken as given and the diarization bindings are untouched. -/
def ConversationManager.addUserMessageWithSpeaker (c : ConversationManager)
    (content : String) (speaker : Speaker) : ConversationManager :=
  { c with
    messages := c.messages ++
      [⟨"user", confContent c.conferenceMode (some speaker) content⟩] }

/-- startAssistantMessage (ConversationManager.ts lines 137 to 139). -/
def ConversationManager.startAssistantMessage (c : ConversationManager) :
    ConversationManager :=
  { c with currentAssistantMessage := "" }

/-- appendToAssistantMessage (ConversationManager.ts lines 144 to 146). -/
def ConversationManager.appendToAssistantMessage (c : ConversationManager)
    (chunk : String) : ConversationManager :=
  { c with currentAssistantMessage := c.currentAssistantMessage ++ chunk }

/-- completeAssistantMessage (ConversationManager.ts lines 151 to 161): a
non-empty buffer is appended as an assistant message and cleared. -/
def ConversationManager.completeAssistantMessage (c : ConversationManager) :
    ConversationManager :=
  if c.currentAssistantMessage ≠ "" then
    { c with
      messages := c.messages ++ [⟨"assistant", c.currentAssistantMessage⟩],
      currentAssistantMessage := "" }
  else c

/-- handleInterruption (ConversationManager.ts lines 166 to 177). The source
guard is the conjunction of JavaScript truthiness of the buffer (the empty
string is falsy) and buffer length strictly greater than 10; .length counts
UTF-16 code units, which agrees with the codepoint count on every string
considered in the theorems below. -/
def ConversationManager.handleInterruption (c : ConversationManager) :
    ConversationManager :=
  if c.currentAssistantMessage ≠ "" ∧ 10 < c.currentAssistantMessage.length then
    { c with
      messages := c.messages ++
        [⟨"assistant", c.currentAssistantMessage ++ " [interrupted]"⟩],
      currentAssistantMessage := "" }
  else
    { c with currentAssistantMessage := "" }

/-- C2 counterexample: the claim asserts that a partial buffer of exactly 10
codepoints is appended with the interrupted suffix; on the 10-character buffer
abcdefghij the code appends nothing (the guard demands strictly more than 10)
and only clears the buffer. -/
theorem conversation_interruption_length_ten_dropped :
    ("abcdefghij" : String).length = 10 ∧
    (ConversationManager.handleInterruption ⟨[], "abcdefghij", false, none, none⟩).messages = [] ∧
    (ConversationManager.handleInterruption ⟨[], "abcdefghij", false, none, none⟩).currentAssistantMessage = "" := by
  refine ⟨rfl, ?_, ?_⟩ <;> decide

/-- C2 amended: the interruption finalizer appends the partial buffer with the
trailing interrupted suffix if and only if the buffer is strictly longer than
10 (hence a buffer of exactly 10 is dropped, 11 is kept); otherwise it appends
nothing; in either case the buffer is empty afterwards. -/
theorem conversation_handleInterruption_threshold (c : ConversationManager) :
    (c.handleInterruption).currentAssistantMessage = "" ∧
    (c.handleInterruption).messages =
      (if 10 < c.currentAssistantMessage.length then
        c.messages ++ [⟨"assistant", c.currentAssistantMessage ++ " [interrupted]"⟩]
      else
        c.messages) := by
  unfold ConversationManager.handleInterruption
  by_cases h : 10 < c.currentAssistantMessage.length
  · have hne : c.currentAssistantMessage ≠ "" := by
      intro he
      rw [he] at h
      simp at h
    simp [h, hne]
  · simp [h]

/-- The shared conference conversation as ConferenceSession constructs it: a
fresh manager with conference mode enabled (enableConferenceMode,
ConversationManager.ts lines 26 to 29). -/
def confConversation0 : ConversationManager :=
  { ConversationManager.empty with conferenceMode := true }

/-- Processing a sequence of final user transcripts carrying raw diarization
speaker ids through addUserMessage, in arrival order. -/
def processUserMessages (c : ConversationManager)
    (inputs : List (String × Nat)) : ConversationManager :=
  inputs.foldl (fun acc p => acc.addUserMessageWithId p.1 (some p.2)) c

/-- Left-biased choice on options, spelling out how the owner binding evolves:
an established binding wins, otherwise the candidate is taken. -/
def optOr (o₁ o₂ : Option Nat) : Option Nat :=
  match o₁ with
  | some x => some x
  | none => o₂

/-- Once the caller binding is established, every further message with a
numeric id resolves against it: an id equal to the binding is labelled CALLER,
any other id is labelled OWNER and is appended either way; the owner slot only
records the first non-caller id. -/
theorem addUserMessageWithId_bound (c : ConversationManager) (a : Nat)
    (content : String) (sid : Nat)
    (hconf : c.conferenceMode = true) (hcaller : c.callerSpeakerId = some a) :
    c.addUserMessageWithId content (some sid) =
      { c with
        messages := c.messages ++ [⟨"user",
          if sid = a then "[CALLER]: " ++ content else "[OWNER]: " ++ content⟩],
        ownerSpeakerId := if sid = a then c.ownerSpeakerId
          else optOr c.ownerSpeakerId (some sid) } := by
  unfold ConversationManager.addUserMessageWithId
  by_cases hsid : sid = a
  · simp [hconf, hcaller, hsid, confContent, Speaker.upper]
  · cases howner : c.ownerSpeakerId <;>
      simp [hconf, hcaller, hsid, howner, confContent, Speaker.upper, optOr]

/-- Folding a message sequence from a state with an established caller
binding: every input is appended with the label determined by comparison
against the caller id, the caller binding and conference flag are stable, and
the owner slot ends bound to its previous value or else to the first id in
the sequence that differs from the caller id. -/
theorem processUserMessages_bound (inputs : List (String × Nat)) :
    ∀ (c : ConversationManager) (a : Nat),
      c.conferenceMode = true → c.callerSpeakerId = some a →
      (processUserMessages c inputs).messages =
        c.messages ++ inputs.map (fun p =>
          ⟨"user", if p.2 = a then "[CALLER]: " ++ p.1 else "[OWNER]: " ++ p.1⟩) ∧
      (processUserMessages c inputs).callerSpeakerId = some a ∧
      (processUserMessages c inputs).conferenceMode = true ∧
      (processUserMessages c inputs).ownerSpeakerId =
        optOr c.ownerSpeakerId ((inputs.map Prod.snd).find? (fun x => x != a)) := by
  induction inputs with
  | nil =>
    intro c a hconf hcaller
    cases howner : c.ownerSpeakerId <;>
      simp [processUserMessages, optOr, hcaller, hconf, howner]
  | cons p rest ih =>
    intro c a hconf hcaller
    have hstep := addUserMessageWithId_bound c a p.1 p.2 hconf hcaller
    have hfold : processUserMessages c (p :: rest) =
        processUserMessages (c.addUserMessageWithId p.1 (some p.2)) rest := rfl
    rw [hfold, hstep]
    by_cases hpa : p.2 = a
    · have h := ih { c with
        messages := c.messages ++ [⟨"user",
          if p.2 = a then "[CALLER]: " ++ p.1 else "[OWNER]: " ++ p.1⟩],
        ownerSpeakerId := if p.2 = a then c.ownerSpeakerId
          else optOr c.ownerSpeakerId (some p.2) } a (by simpa using hconf) (by simpa using hcaller)
      simpa [hpa] using h
    · have h := ih { c with
        messages := c.messages ++ [⟨"user",
          if p.2 = a then "[CALLER]: " ++ p.1 else "[OWNER]: " ++ p.1⟩],
        ownerSpeakerId := if p.2 = a then c.ownerSpeakerId
          else optOr c.ownerSpeakerId (some p.2) } a (by simpa using hconf) (by simpa using hcaller)
      cases howner : c.ownerSpeakerId <;>
        simpa [hpa, howner, optOr] using h

/-- C8 counterexample: starting from the fresh shared conference conversation,
ids 0, 1, 2 arrive in turn. After 0 binds caller and 1 binds owner, the third
distinct id 2 finds the owner slot occupied; the claim says that message is
then ignored with a log and not appended with a speaker label, but the code
appends it labelled [OWNER], leaving three messages rather than two. -/
theorem conversation_third_speaker_appended :
    (processUserMessages confConversation0 [("a", 0), ("b", 1), ("c", 2)]).messages =
      [⟨"user", "[CALLER]: a"⟩, ⟨"user", "[OWNER]: b"⟩, ⟨"user", "[OWNER]: c"⟩] ∧
    (processUserMessages confConversation0 [("a", 0), ("b", 1), ("c", 2)]).ownerSpeakerId =
      some 1 := by
  refine ⟨?_, ?_⟩ <;> decide

/-- C8 amended: over any sequence of user messages with raw diarization ids in
conference mode, the first id observed is bound to caller, occurrences of the
caller id reuse that binding, and every other id is labelled owner and the
message appended with the [OWNER] prefix — the owner slot is bound to the
first non-caller id, and a later third distinct id does not rebind it but is
still labelled owner and appended, not ignored. -/
theorem conversation_speaker_resolution (c0 : String) (i0 : Nat)
    (rest : List (String × Nat)) :
    (processUserMessages confConversation0 ((c0, i0) :: rest)).messages =
      ⟨"user", "[CALLER]: " ++ c0⟩ ::
        rest.map (fun p =>
          ⟨"user", if p.2 = i0 then "[CALLER]: " ++ p.1 else "[OWNER]: " ++ p.1⟩) ∧
    (processUserMessages confConversation0 ((c0, i0) :: rest)).callerSpeakerId = some i0 ∧
    (processUserMessages confConversation0 ((c0, i0) :: rest)).ownerSpeakerId =
      (rest.map Prod.snd).find? (fun x => x != i0) := by
  have hstep : processUserMessages confConversation0 ((c0, i0) :: rest) =
      processUserMessages
        ⟨[⟨"user", "[CALLER]: " ++ c0⟩], "", true, some i0, none⟩ rest := by
    rfl
  have h := processUserMessages_bound rest
    ⟨[⟨"user", "[CALLER]: " ++ c0⟩], "", true, some i0, none⟩ i0 rfl rfl
  rw [hstep]
  exact ⟨by simpa [optOr] using h.1, h.2.1, by simpa [optOr] using h.2.2.2⟩

/-! ## Interruption detector (src/src/core/InterruptionDetector.ts) -/

/-- Value of one base64 alphabet character (RFC 4648, the standard alphabet
used by Uint8Array.fromBase64 with default options). Any other character is
rejected. -/
def base64CharValue (ch : Char) : Option Nat :=
  if 65 ≤ ch.toNat ∧ ch.toNat ≤ 90 then some (ch.toNat - 65)
  else if 97 ≤ ch.toNat ∧ ch.toNat ≤ 122 then some (ch.toNat - 97 + 26)
  else if 48 ≤ ch.toNat ∧ ch.toNat ≤ 57 then some (ch.toNat - 48 + 52)
  else if ch = '+' then some 62
  else if ch = '/' then some 63
  else none

/-- Decoding of an unpadded base64 character sequence into bytes, four input
characters per three bytes, with a trailing group of two or three characters
allowed (the loose last-chunk handling of Uint8Array.fromBase64) and a
trailing group of one character rejected. -/
def decodeBase64Chars : List Char → Option (List Nat)
  | [] => some []
  | [_] => none
  | [c1, c2] => do
      let v1 ← base64CharValue c1
      let v2 ← base64CharValue c2
      pure [v1 * 4 + v2 / 16]
  | [c1, c2, c3] => do
      let v1 ← base64CharValue c1
      let v2 ← base64CharValue c2
      let v3 ← base64CharValue c3
      pure [v1 * 4 + v2 / 16, v2 % 16 * 16 + v3 / 4]
  | c1 :: c2 :: c3 :: c4 :: rest => do
      let v1 ← base64CharValue c1
      let v2 ← base64CharValue c2
      let v3 ← base64CharValue c3
      let v4 ← base64CharValue c4
      let tail ← decodeBase64Chars rest
      pure ([v1 * 4 + v2 / 16, v2 % 16 * 16 + v3 / 4, v3 % 4 * 64 + v4] ++ tail)

/-- Uint8Array.fromBase64 with default options on whitespace-free input,
returning none exactly where the source primitive throws a SyntaxError (which
detectActivity catches): padding may only be one or two trailing equals signs
completing a four-character group. -/
def decodeBase64 (s : String) : Option (List Nat) :=
  let cs := s.data
  let pad := (cs.reverse.takeWhile (fun c => c = '=')).length
  if pad = 0 then decodeBase64Chars cs
  else if pad ≤ 2 ∧ cs.length % 4 = 0 then
    decodeBase64Chars (cs.take (cs.length - pad))
  else none

/-- The per-sample activity test of detectActivity (InterruptionDetector.ts
line 26): the byte deviates from the μ-law silence value 127 by more than 3. -/
def sampleActive (sample : Nat) : Bool :=
  3 < ((sample : Int) - 127).natAbs

/-- The activeSamples count of the detectActivity loop (InterruptionDetector.ts
lines 21 to 29). -/
def countActiveSamples (buf : List Nat) : Nat :=
  (buf.filter sampleActive).length

/-- detectActivity (InterruptionDetector.ts lines 15 to 38): decode the base64
payload and compare activeSamples / buffer.length against 0.05; a decode
failure is caught and yields false. The source performs the division in IEEE
doubles; for byte counts far below 2^50 the comparison agrees with the exact
rational one, embedded here in the integer form 20 * activeSamples > length.
On the empty buffer the source compares NaN > 0.05, which is false, matching
20 * 0 > 0 here. The method reads no detector state. -/
def InterruptionDetector.detectActivity (mulawBase64 : String) : Bool :=
  match decodeBase64 mulawBase64 with
  | none => false
  | some buffer => decide (buffer.length < 20 * countActiveSamples buffer)

/-- The mutable state of class InterruptionDetector: the timestamp of the last
positive detection and the running total. -/
structure InterruptionDetector where
  lastDetectionTime : Int
  detectionCount : Nat
deriving DecidableEq, Repr

/-- shouldInterrupt (InterruptionDetector.ts lines 44 to 61): false on an
inactive frame; false within 100 ms of the last positive detection (debounce),
with the state untouched in both cases; otherwise true, recording the time and
bumping the count. -/
def InterruptionDetector.shouldInterrupt (d : InterruptionDetector)
    (mulawBase64 : String) (now : Int) : Bool × InterruptionDetector :=
  if ¬ InterruptionDetector.detectActivity mulawBase64 then
    (false, d)
  else if now - d.lastDetectionTime < 100 then
    (false, d)
  else
    (true, { lastDetectionTime := now, detectionCount := d.detectionCount + 1 })

/-- C7: on a decodable frame, activity holds exactly when the fraction of
samples deviating from silence 127 by more than 3 exceeds 0.05 (in exact
integer form); shouldInterrupt returns true exactly when the frame is active
and at least 100 ms have passed since the last positive detection; and two
calls falling in the same 100 ms window produce at most one true result. -/
theorem interruptionDetector_activity_and_debounce
    (frame : String) (buffer : List Nat) (d : InterruptionDetector) (t1 t2 : Int)
    (hdec : decodeBase64 frame = some buffer)
    (hle : t1 ≤ t2) (hwin : t2 - t1 < 100) :
    (InterruptionDetector.detectActivity frame =
      decide (buffer.length < 20 * countActiveSamples buffer)) ∧
    ((InterruptionDetector.shouldInterrupt d frame t1).1 = true ↔
      (InterruptionDetector.detectActivity frame = true ∧
        100 ≤ t1 - d.lastDetectionTime)) ∧
    ¬ ((InterruptionDetector.shouldInterrupt d frame t1).1 = true ∧
       (InterruptionDetector.shouldInterrupt
         (InterruptionDetector.shouldInterrupt d frame t1).2 frame t2).1 = true) := by
  have hiff : ∀ (e : InterruptionDetector) (t : Int),
      (InterruptionDetector.shouldInterrupt e frame t).1 = true ↔
        (InterruptionDetector.detectActivity frame = true ∧
          100 ≤ t - e.lastDetectionTime) := by
    intro e t
    unfold InterruptionDetector.shouldInterrupt
    by_cases hact : InterruptionDetector.detectActivity frame
    · by_cases hdeb : t - e.lastDetectionTime < 100
      · simp [hact, hdeb]
      · simp [hact, hdeb]
        omega
    · simp [hact]
  have hupd : ∀ (e : InterruptionDetector) (t : Int),
      (InterruptionDetector.shouldInterrupt e frame t).1 = true →
        (InterruptionDetector.shouldInterrupt e frame t).2.lastDetectionTime = t := by
    intro e t h
    unfold InterruptionDetector.shouldInterrupt at h ⊢
    by_cases hact : InterruptionDetector.detectActivity frame
    · by_cases hdeb : t - e.lastDetectionTime < 100
      · simp [hact, hdeb] at h
      · simp [hact, hdeb]
    · simp [hact] at h
  refine ⟨?_, hiff d t1, ?_⟩
  · unfold InterruptionDetector.detectActivity
    rw [hdec]
  · rintro ⟨h1, h2⟩
    have hl := hupd d t1 h1
    have h2c := (hiff _ t2).mp h2
    rw [hl] at h2c
    omega

/-- C7 witness: the frame AAAA decodes to three zero bytes, all of which are
active samples, and the two calls at 200 and 250 ms fall in one window. -/
theorem interruptionDetector_activity_and_debounce_witness :
    (InterruptionDetector.detectActivity "AAAA" =
      decide (([0, 0, 0] : List Nat).length < 20 * countActiveSamples [0, 0, 0])) ∧
    ((InterruptionDetector.shouldInterrupt ⟨0, 0⟩ "AAAA" 200).1 = true ↔
      (InterruptionDetector.detectActivity "AAAA" = true ∧
        (100 : Int) ≤ 200 - 0)) ∧
    ¬ ((InterruptionDetector.shouldInterrupt ⟨0, 0⟩ "AAAA" 200).1 = true ∧
       (InterruptionDetector.shouldInterrupt
         (InterruptionDetector.shouldInterrupt ⟨0, 0⟩ "AAAA" 200).2 "AAAA" 250).1 = true) :=
  interruptionDetector_activity_and_debounce "AAAA" [0, 0, 0] ⟨0, 0⟩ 200 250
    (by decide) (by decide) (by decide)

/-- C10: the detector is total over arbitrary strings — an undecodable
payload (the source catch branch) and the empty payload both count as
inactive, and an inactive frame leaves the debounce state untouched while
shouldInterrupt returns false. -/
theorem interruptionDetector_total_inactive
    (s₁ s₂ s₃ : String) (d : InterruptionDetector) (now : Int)
    (h1 : decodeBase64 s₁ = none)
    (h2 : decodeBase64 s₂ = some [])
    (h3 : InterruptionDetector.detectActivity s₃ = false) :
    InterruptionDetector.detectActivity s₁ = false ∧
    InterruptionDetector.detectActivity s₂ = false ∧
    InterruptionDetector.shouldInterrupt d s₁ now = (false, d) ∧
    InterruptionDetector.shouldInterrupt d s₂ now = (false, d) ∧
    InterruptionDetector.shouldInterrupt d s₃ now = (false, d) := by
  have e1 : InterruptionDetector.detectActivity s₁ = false := by
    unfold InterruptionDetector.detectActivity
    rw [h1]
  have e2 : InterruptionDetector.detectActivity s₂ = false := by
    unfold InterruptionDetector.detectActivity
    rw [h2]
    simp [countActiveSamples]
  refine ⟨e1, e2, ?_, ?_, ?_⟩ <;>
    simp [InterruptionDetector.shouldInterrupt, e1, e2, h3]

/-- C10 witness: the string of three exclamation marks is not valid base64,
the empty string decodes to the empty buffer, and fw== decodes to the single
silence byte 127 and is therefore inactive; none of the three touches the
detector state. -/
theorem interruptionDetector_total_inactive_witness :
    InterruptionDetector.detectActivity "!!!" = false ∧
    InterruptionDetector.detectActivity "" = false ∧
    InterruptionDetector.shouldInterrupt ⟨40, 2⟩ "!!!" 70 = (false, ⟨40, 2⟩) ∧
    InterruptionDetector.shouldInterrupt ⟨40, 2⟩ "" 70 = (false, ⟨40, 2⟩) ∧
    InterruptionDetector.shouldInterrupt ⟨40, 2⟩ "fw==" 70 = (false, ⟨40, 2⟩) :=
  interruptionDetector_total_inactive "!!!" "" "fw==" ⟨40, 2⟩ 70
    (by decide) (by decide) (by decide)

/-! ## Audio controller (class AudioController) -/

/-- Outbound frames written to the telephony WebSocket by the audio
controller: media messages carrying a base64 payload and clear commands. -/
inductive TwilioFrame
  | media (payload : String)
  | clear
deriving DecidableEq, Repr

/-- The mutable state of class AudioController: the one-bit gate and the
timestamp of the last effective buffer clear. The WebSocket and streamSid
fields are connection identity; writes to the socket are returned as a frame
list instead. -/
structure AudioController where
  enabled : Bool
  lastClearTime : Int
deriving DecidableEq, Repr

/-- enable (AudioController lines 25 to 28). -/
def AudioController.enable (a : AudioController) : AudioController :=
  { a with enabled := true }

/-- disable (AudioController lines 33 to 36). -/
def AudioController.disable (a : AudioController) : AudioController :=
  { a with enabled := false }

/-- sendAudio (AudioController lines 48 to 61): when the gate is closed the
frame is dropped and false returned; otherwise one media message is written
and true returned. -/
def AudioController.sendAudio (a : AudioController) (audioBase64 : String) :
    AudioController × List TwilioFrame × Bool :=
  if a.enabled then (a, [TwilioFrame.media audioBase64], true)
  else (a, [], false)

/-- clearBuffer (AudioController lines 66 to 87): within 50 ms of the last
effective clear nothing is sent and the state is untouched; otherwise the
clear time is recorded and the clear command is written three times for
reliability. -/
def AudioController.clearBuffer (a : AudioController) (now : Int) :
    AudioController × List TwilioFrame :=
  if now - a.lastClearTime < 50 then (a, [])
  else ({ a with lastClearTime := now },
        [TwilioFrame.clear, TwilioFrame.clear, TwilioFrame.clear])

/-- stopImmediately (AudioController lines 92 to 95): disable, then clear. -/
def AudioController.stopImmediately (a : AudioController) (now : Int) :
    AudioController × List TwilioFrame :=
  let a1 := a.disable
  a1.clearBuffer now

/-- C6: a first stopImmediately outside the 50 ms window of the last
effective clear emits exactly three clear commands; a second one less than
50 ms later emits nothing and leaves the controller state unchanged, so the
pair is observably the single call. -/
theorem audioController_stopImmediately_debounce (a : AudioController)
    (t1 t2 : Int) (h1 : 50 ≤ t1 - a.lastClearTime) (h2 : t2 - t1 < 50) :
    (a.stopImmediately t1).2 =
      [TwilioFrame.clear, TwilioFrame.clear, TwilioFrame.clear] ∧
    (a.stopImmediately t1).1.stopImmediately t2 = ((a.stopImmediately t1).1, []) := by
  have hn1 : ¬ (t1 - a.lastClearTime < 50) := by omega
  constructor
  · simp [AudioController.stopImmediately, AudioController.clearBuffer,
      AudioController.disable, hn1]
  · simp [AudioController.stopImmediately, AudioController.clearBuffer,
      AudioController.disable, hn1, h2]

/-- C6 witness: a controller whose last clear was at time 0, stopped at 100
and again at 120 ms. -/
theorem audioController_stopImmediately_debounce_witness :
    ((50 : Int) ≤ 100 - 0) ∧ ((120 : Int) - 100 < 50) ∧
    ((AudioController.stopImmediately ⟨true, 0⟩ 100).2 =
      [TwilioFrame.clear, TwilioFrame.clear, TwilioFrame.clear] ∧
     (AudioController.stopImmediately ⟨true, 0⟩ 100).1.stopImmediately 120 =
       ((AudioController.stopImmediately ⟨true, 0⟩ 100).1, [])) :=
  ⟨by decide, by decide,
    audioController_stopImmediately_debounce ⟨true, 0⟩ 100 120 (by decide) (by decide)⟩

/-! ## Solo voice agent (class VoiceAgent, the conference-aware version of
part_001 starting at line 1131) -/

/-- Externally observable effects of the agent handlers, in emission order:
successful state transitions (as announced to the synchronous listeners),
gate toggles, frames written to the telephony WebSocket, the abort of the LLM
cancellation scope, TTS commands, the opening of an LLM stream, the
delegation of a transcript to the conference session, and the log emitted
when a transcript is dropped. -/
inductive Effect
  | stateSet (s : AgentState)
  | gateEnabled
  | gateDisabled
  | twilio (f : TwilioFrame)
  | llmAbort
  | ttsClear
  | ttsSend (text : String)
  | ttsFlush
  | llmStreamStart
  | delegated
  | logDrop (text : String)
deriving DecidableEq, Repr

/-- The mutable state of class VoiceAgent relevant to its handlers: the state
machine, the audio controller, the conversation, the presence of an LLM
abort controller, and whether a conference session reference is set. The
immutable identity fields (streamSid, callSid, callerPhone, role), the
adapter handles (stt, tts, agent — external collaborators whose commands
appear as effects) and the interruption detector (constructed but unused by
these handlers, which rely on transcript-based barge-in only) carry no state
the claims depend on. The audioInFlight flag is written but never read in
this class and is omitted. -/
structure VoiceAgent where
  stateMachine : VoiceAgentStateMachine
  audio : AudioController
  conversation : ConversationManager
  abortController : Bool
  conferenceSession : Bool
deriving DecidableEq, Repr

/-- One stateMachine.transition call as made from inside VoiceAgent, with the
synchronous listener installed by setupStateHandlers (part_001 lines 1446 to
1463): a successful transition emits the new state; on entering SPEAKING the
listener additionally enables the audio gate. -/
def VoiceAgent.doTransition (va : VoiceAgent) (target : AgentState) (now : Int)
    (reason : Option String) : VoiceAgent × List Effect :=
  let r := va.stateMachine.transition target now reason
  if r.2 then
    let va1 := { va with stateMachine := r.1 }
    if target = AgentState.SPEAKING then
      ({ va1 with audio := va1.audio.enable },
        [Effect.stateSet target, Effect.gateEnabled])
    else (va1, [Effect.stateSet target])
  else (va, [])

/-- handleInterruption (part_001 lines 1251 to 1278): transition to
INTERRUPTED, stop audio immediately (disable plus buffer clear), abort the
LLM scope when present, clear the TTS queue (errors ignored), finalize the
partial assistant message, and return to LISTENING. -/
def VoiceAgent.handleInterruption (va : VoiceAgent) (now : Int) :
    VoiceAgent × List Effect :=
  let s1 := va.doTransition AgentState.INTERRUPTED now (some "User interrupted")
  let stop := s1.1.audio.stopImmediately now
  let va2 := { s1.1 with audio := stop.1 }
  let fxStop := Effect.gateDisabled :: stop.2.map Effect.twilio
  let s3 : VoiceAgent × List Effect :=
    if va2.abortController then
      ({ va2 with abortController := false }, [Effect.llmAbort])
    else (va2, [])
  let va4 := { s3.1 with conversation := s3.1.conversation.handleInterruption }
  let s5 := va4.doTransition AgentState.LISTENING now (some "Ready for new input")
  (s5.1, s1.2 ++ fxStop ++ s3.2 ++ [Effect.ttsClear] ++ s5.2)

/-- One chunk of the typed LLM stream consumed by generateResponse. The
text-delta case carries text routed to the conversation and TTS; every other
case of the switch (tool events, reasoning, step markers, start, finish,
error, abort, source, file, raw) only logs. -/
inductive LLMChunk
  | textDelta (text : String)
  | otherLogged
deriving DecidableEq, Repr

/-- How the awaited LLM stream ends: normal end of iteration, an AbortError
thrown by the cancellation scope, or any other thrown error. -/
inductive LLMOutcome
  | normal
  | thrownAbort
  | thrownError
deriving DecidableEq, Repr

/-- The for-await loop of generateResponse (part_001 lines 1297 to 1392):
chunks are consumed only while the machine is still SPEAKING; a text delta is
appended to the partial assistant message and forwarded to TTS. -/
def VoiceAgent.runStream : VoiceAgent → List LLMChunk → VoiceAgent × List Effect
  | va, [] => (va, [])
  | va, chunk :: rest =>
    if va.stateMachine.currentState ≠ AgentState.SPEAKING then (va, [])
    else
      match chunk with
      | .textDelta t =>
        let va1 := { va with
          conversation := va.conversation.appendToAssistantMessage t }
        let r := VoiceAgent.runStream va1 rest
        (r.1, Effect.ttsSend t :: r.2)
      | .otherLogged => VoiceAgent.runStream va rest

/-- generateResponse (part_001 lines 1283 to 1414): create a fresh abort
controller, open the LLM stream, transition to SPEAKING, reset the partial
assistant message, consume the stream, and on a normal end while still
SPEAKING flush the TTS and promote the partial message; a thrown AbortError
is swallowed, any other thrown error transitions to LISTENING; the finally
block clears the abort controller. The stream chunks and the way the awaited
stream ends are oracle inputs from the language service. -/
def VoiceAgent.generateResponse (va : VoiceAgent) (now : Int)
    (chunks : List LLMChunk) (outcome : LLMOutcome) : VoiceAgent × List Effect :=
  let va0 := { va with abortController := true }
  let s1 := va0.doTransition AgentState.SPEAKING now (some "Generating response")
  let va2 := { s1.1 with conversation := s1.1.conversation.startAssistantMessage }
  let s2 := VoiceAgent.runStream va2 chunks
  let s3 : VoiceAgent × List Effect :=
    match outcome with
    | .normal =>
      if s2.1.stateMachine.currentState = AgentState.SPEAKING then
        ({ s2.1 with conversation := s2.1.conversation.completeAssistantMessage },
          [Effect.ttsFlush])
      else (s2.1, [])
    | .thrownAbort => (s2.1, [])
    | .thrownError => s2.1.doTransition AgentState.LISTENING now (some "Error occurred")
  ({ s3.1 with abortController := false },
    Effect.llmStreamStart :: (s1.2 ++ s2.2 ++ s3.2))

/-- The normal processing path that both the SPEAKING and the LISTENING
branches of handleTranscript perform verbatim: append the user message,
transition to THINKING, and start a fresh generation. -/
def VoiceAgent.normalProcess (va : VoiceAgent) (transcript : String)
    (speakerId : Option Nat) (now : Int) (chunks : List LLMChunk)
    (outcome : LLMOutcome) : VoiceAgent × List Effect :=
  let va1 := { va with
    conversation := va.conversation.addUserMessageWithId transcript speakerId }
  let s2 := va1.doTransition AgentState.THINKING now (some "Processing user input")
  let s3 := s2.1.generateResponse now chunks outcome
  (s3.1, s2.2 ++ s3.2)

/-- handleTranscript (part_001 lines 1202 to 1246): with a conference session
set the transcript is delegated; otherwise a transcript during SPEAKING runs
the interruption path and then the normal path, a transcript during LISTENING
runs the normal path only, and in any other state it is dropped with a log. -/
def VoiceAgent.handleTranscript (va : VoiceAgent) (transcript : String)
    (speakerId : Option Nat) (now : Int) (chunks : List LLMChunk)
    (outcome : LLMOutcome) : VoiceAgent × List Effect :=
  if va.conferenceSession then (va, [Effect.delegated])
  else if va.stateMachine.currentState = AgentState.SPEAKING then
    let s1 := va.handleInterruption now
    let va2 := { s1.1 with
      conversation := s1.1.conversation.addUserMessageWithId transcript speakerId }
    let s3 := va2.doTransition AgentState.THINKING now (some "Processing user input")
    let s4 := s3.1.generateResponse now chunks outcome
    (s4.1, s1.2 ++ s3.2 ++ s4.2)
  else if va.stateMachine.currentState = AgentState.LISTENING then
    let va1 := { va with
      conversation := va.conversation.addUserMessageWithId transcript speakerId }
    let s2 := va1.doTransition AgentState.THINKING now (some "Processing user input")
    let s3 := s2.1.generateResponse now chunks outcome
    (s3.1, s2.2 ++ s3.2)
  else (va, [Effect.logDrop transcript])

/-- handleTTSAudio (part_001 lines 1419 to 1425): the audio controller
decides whether the synthesized frame flows. -/
def VoiceAgent.handleTTSAudio (va : VoiceAgent) (audioBase64 : String) :
    VoiceAgent × List Effect :=
  let r := va.audio.sendAudio audioBase64
  ({ va with audio := r.1 }, r.2.1.map Effect.twilio)

/-- handleTTSFlushed (part_001 lines 1430 to 1441): when still SPEAKING,
transition to LISTENING; then disable the audio gate. -/
def VoiceAgent.handleTTSFlushed (va : VoiceAgent) (now : Int) :
    VoiceAgent × List Effect :=
  let s1 :=
    if va.stateMachine.currentState = AgentState.SPEAKING then
      va.doTransition AgentState.LISTENING now (some "Response complete")
    else (va, [])
  ({ s1.1 with audio := s1.1.audio.disable }, s1.2 ++ [Effect.gateDisabled])

/-- The inbound events a session processes between two interruptions: final
transcripts from STT (carrying the language-service oracle for the
generation they trigger), synthesized TTS frames, and the TTS flushed
callback. -/
inductive AgentEvent
  | transcriptEvt (text : String) (speakerId : Option Nat)
      (chunks : List LLMChunk) (outcome : LLMOutcome)
  | ttsAudio (payload : String)
  | ttsFlushed
deriving DecidableEq, Repr

/-- Dispatch of one inbound event to its handler. -/
def VoiceAgent.step (va : VoiceAgent) (now : Int) :
    AgentEvent → VoiceAgent × List Effect
  | .transcriptEvt text sid chunks outcome =>
      va.handleTranscript text sid now chunks outcome
  | .ttsAudio payload => va.handleTTSAudio payload
  | .ttsFlushed => va.handleTTSFlushed now

/-- Serialized processing of a timestamped event sequence through the
single-consumer session loop, concatenating the emitted effects. -/
def VoiceAgent.processEvents : VoiceAgent → List (Int × AgentEvent) → VoiceAgent × List Effect
  | va, [] => (va, [])
  | va, (t, e) :: rest =>
    let s1 := va.step t e
    let s2 := VoiceAgent.processEvents s1.1 rest
    (s2.1, s1.2 ++ s2.2)

/-- An effect that writes an outbound media frame to the telephony stream. -/
def effectIsMedia : Effect → Bool
  | Effect.twilio (TwilioFrame.media _) => true
  | _ => false

/-- An effect that announces entry into the SPEAKING state. -/
def effectIsSpeakingSet : Effect → Bool
  | Effect.stateSet AgentState.SPEAKING => true
  | _ => false

/-- Scan of an effect trace up to the first entry into SPEAKING: true when no
outbound media frame occurs before that point. -/
def noMediaBeforeSpeaking : List Effect → Bool
  | [] => true
  | e :: rest =>
    if effectIsSpeakingSet e then true
    else if effectIsMedia e then false
    else noMediaBeforeSpeaking rest

/-- True when the trace contains no outbound media frame at all. -/
def mediaFree (fx : List Effect) : Bool :=
  fx.all fun e => ! effectIsMedia e

/-- True when the trace contains an entry into SPEAKING. -/
def entersSpeaking (fx : List Effect) : Bool :=
  fx.any effectIsSpeakingSet

/-- Appending to a media-free prefix: the scan accepts when the prefix enters
SPEAKING, and otherwise defers to the suffix. -/
theorem noMediaBeforeSpeaking_append (xs ys : List Effect)
    (hfree : mediaFree xs = true)
    (h : entersSpeaking xs = true ∨ noMediaBeforeSpeaking ys = true) :
    noMediaBeforeSpeaking (xs ++ ys) = true := by
  induction xs with
  | nil =>
    rcases h with h | h
    · simp [entersSpeaking] at h
    · simpa using h
  | cons e rest ih =>
    simp only [mediaFree, List.all_cons, Bool.and_eq_true, Bool.not_eq_true'] at hfree
    by_cases hs : effectIsSpeakingSet e = true
    · simp [noMediaBeforeSpeaking, hs]
    · have hs' : effectIsSpeakingSet e = false := by
        cases hh : effectIsSpeakingSet e
        · rfl
        · exact absurd hh hs
      have hrest : entersSpeaking rest = true ∨ noMediaBeforeSpeaking ys = true := by
        rcases h with h | h
        · left
          simpa [entersSpeaking, List.any_cons, hs'] using h
        · exact Or.inr h
      have htail := ih hfree.2 hrest
      simp [noMediaBeforeSpeaking, hs', hfree.1]
      exact htail

/-- The conversation field is untouched by doTransition. -/
theorem doTransition_conversation (va : VoiceAgent) (target : AgentState)
    (now : Int) (r : Option String) :
    (va.doTransition target now r).1.conversation = va.conversation := by
  simp only [VoiceAgent.doTransition]
  cases hb : (va.stateMachine.transition target now r).2 <;>
    by_cases ht : target = AgentState.SPEAKING <;>
      simp [hb, ht]

/-- doTransition writes no media frame. -/
theorem doTransition_mediaFree (va : VoiceAgent) (target : AgentState)
    (now : Int) (r : Option String) :
    mediaFree (va.doTransition target now r).2 = true := by
  simp only [VoiceAgent.doTransition]
  cases hb : (va.stateMachine.transition target now r).2 <;>
    by_cases ht : target = AgentState.SPEAKING <;>
      simp [hb, ht, mediaFree, effectIsMedia]

/-- doTransition toward a target other than SPEAKING announces no entry into
SPEAKING. -/
theorem doTransition_entersSpeaking (va : VoiceAgent) (target : AgentState)
    (now : Int) (r : Option String) (ht : target ≠ AgentState.SPEAKING) :
    entersSpeaking (va.doTransition target now r).2 = false := by
  simp only [VoiceAgent.doTransition]
  cases hb : (va.stateMachine.transition target now r).2
  · simp [hb, entersSpeaking]
  · simp [hb, ht, entersSpeaking]
    cases target <;> simp_all [effectIsSpeakingSet]

/-- When doTransition does not announce SPEAKING, the gate bit is unchanged. -/
theorem doTransition_gate (va : VoiceAgent) (target : AgentState) (now : Int)
    (r : Option String)
    (h : entersSpeaking (va.doTransition target now r).2 = false) :
    (va.doTransition target now r).1.audio.enabled = va.audio.enabled := by
  simp only [VoiceAgent.doTransition] at h ⊢
  cases hb : (va.stateMachine.transition target now r).2
  · simp [hb]
  · by_cases ht : target = AgentState.SPEAKING
    · subst ht
      simp [hb, entersSpeaking, effectIsSpeakingSet] at h
    · simp [hb, ht]

/-- The stream loop touches only the conversation buffer: audio is preserved,
the message log is preserved, no media frame is written and SPEAKING is never
announced. -/
theorem runStream_invariants (chunks : List LLMChunk) : ∀ (va : VoiceAgent),
    (VoiceAgent.runStream va chunks).1.audio = va.audio ∧
    (VoiceAgent.runStream va chunks).1.conversation.messages =
      va.conversation.messages ∧
    mediaFree (VoiceAgent.runStream va chunks).2 = true ∧
    entersSpeaking (VoiceAgent.runStream va chunks).2 = false := by
  induction chunks with
  | nil =>
    intro va
    simp [VoiceAgent.runStream, mediaFree, entersSpeaking]
  | cons c rest ih =>
    intro va
    simp only [VoiceAgent.runStream]
    by_cases hs : va.stateMachine.currentState = AgentState.SPEAKING
    · have hcond : ¬ (va.stateMachine.currentState ≠ AgentState.SPEAKING) := by
        simp [hs]
      cases c with
      | textDelta t =>
        have h := ih { va with
          conversation := va.conversation.appendToAssistantMessage t }
        simp [hcond, mediaFree, entersSpeaking, effectIsMedia, effectIsSpeakingSet,
          ConversationManager.appendToAssistantMessage] at h ⊢
        exact ⟨h.1, h.2.1, h.2.2.1, h.2.2.2⟩
      | otherLogged =>
        have h := ih va
        simpa [hcond] using h
    · simp [hs, mediaFree, entersSpeaking]

/-- Projections of the stream-loop invariants, in rewrite form. -/
theorem runStream_audio (chunks : List LLMChunk) (va : VoiceAgent) :
    (VoiceAgent.runStream va chunks).1.audio = va.audio :=
  (runStream_invariants chunks va).1

/-- The stream loop preserves the message log. -/
theorem runStream_messages (chunks : List LLMChunk) (va : VoiceAgent) :
    (VoiceAgent.runStream va chunks).1.conversation.messages =
      va.conversation.messages :=
  (runStream_invariants chunks va).2.1

/-- The stream loop writes no media frame. -/
theorem runStream_mediaFree (chunks : List LLMChunk) (va : VoiceAgent) :
    mediaFree (VoiceAgent.runStream va chunks).2 = true :=
  (runStream_invariants chunks va).2.2.1

/-- The stream loop never announces SPEAKING. -/
theorem runStream_entersSpeaking (chunks : List LLMChunk) (va : VoiceAgent) :
    entersSpeaking (VoiceAgent.runStream va chunks).2 = false :=
  (runStream_invariants chunks va).2.2.2

/-- mediaFree distributes over cons. -/
theorem mediaFree_cons (e : Effect) (fx : List Effect) :
    mediaFree (e :: fx) = (! effectIsMedia e && mediaFree fx) := by
  simp [mediaFree]

/-- mediaFree distributes over append. -/
theorem mediaFree_append (xs ys : List Effect) :
    mediaFree (xs ++ ys) = (mediaFree xs && mediaFree ys) := by
  simp [mediaFree, List.all_append]

/-- entersSpeaking distributes over cons. -/
theorem entersSpeaking_cons (e : Effect) (fx : List Effect) :
    entersSpeaking (e :: fx) = (effectIsSpeakingSet e || entersSpeaking fx) := by
  simp [entersSpeaking]

/-- entersSpeaking distributes over append. -/
theorem entersSpeaking_append (xs ys : List Effect) :
    entersSpeaking (xs ++ ys) = (entersSpeaking xs || entersSpeaking ys) := by
  simp [entersSpeaking, List.any_append]

/-- startAssistantMessage preserves the message log. -/
theorem startAssistantMessage_messages (c : ConversationManager) :
    (c.startAssistantMessage).messages = c.messages := rfl

/-- completeAssistantMessage appends the non-empty buffer as one assistant
message and otherwise nothing. -/
theorem completeAssistantMessage_messages_eq (c : ConversationManager) :
    (c.completeAssistantMessage).messages =
      c.messages ++ (if c.currentAssistantMessage = "" then []
        else [⟨"assistant", c.currentAssistantMessage⟩]) := by
  unfold ConversationManager.completeAssistantMessage
  by_cases h : c.currentAssistantMessage = "" <;> simp [h]

/-- mediaFree of the empty trace. -/
theorem mediaFree_nil : mediaFree [] = true := rfl

/-- entersSpeaking of the empty trace. -/
theorem entersSpeaking_nil : entersSpeaking [] = false := rfl

/-- generateResponse writes no media frame to the telephony stream: its
outbound traffic is TTS text, TTS flush, state announcements, and the gate
toggle bundled with the SPEAKING announcement. -/
theorem generateResponse_mediaFree (va : VoiceAgent) (now : Int)
    (chunks : List LLMChunk) (oc : LLMOutcome) :
    mediaFree (va.generateResponse now chunks oc).2 = true := by
  simp only [VoiceAgent.generateResponse]
  cases oc <;>
    simp only [apply_ite Prod.snd, mediaFree_cons, mediaFree_append, mediaFree_nil,
      apply_ite mediaFree, doTransition_mediaFree, runStream_mediaFree,
      effectIsMedia, ite_self, Bool.not_false, Bool.and_true, Bool.true_and,
      Bool.and_self]

/-- generateResponse always opens an LLM stream: the head effect. -/
theorem generateResponse_streamStart (va : VoiceAgent) (now : Int)
    (chunks : List LLMChunk) (oc : LLMOutcome) :
    Effect.llmStreamStart ∈ (va.generateResponse now chunks oc).2 := by
  simp [VoiceAgent.generateResponse]

/-- generateResponse only appends to the message log. -/
theorem generateResponse_messages (va : VoiceAgent) (now : Int)
    (chunks : List LLMChunk) (oc : LLMOutcome) :
    va.conversation.messages <+:
      (va.generateResponse now chunks oc).1.conversation.messages := by
  simp only [VoiceAgent.generateResponse]
  cases oc with
  | normal =>
    simp only [apply_ite Prod.fst, apply_ite VoiceAgent.conversation,
      apply_ite ConversationManager.messages, completeAssistantMessage_messages_eq,
      runStream_messages, startAssistantMessage_messages, doTransition_conversation]
    split
    · exact List.prefix_append _ _
    · exact List.prefix_rfl
  | thrownAbort =>
    simp only [runStream_messages, startAssistantMessage_messages,
      doTransition_conversation]
    exact List.prefix_rfl
  | thrownError =>
    simp only [doTransition_conversation, runStream_messages,
      startAssistantMessage_messages]
    exact List.prefix_rfl

/-- When generateResponse never announces SPEAKING, the gate bit is exactly
what it was on entry. -/
theorem generateResponse_gate (va : VoiceAgent) (now : Int)
    (chunks : List LLMChunk) (oc : LLMOutcome)
    (h : entersSpeaking (va.generateResponse now chunks oc).2 = false) :
    (va.generateResponse now chunks oc).1.audio.enabled = va.audio.enabled := by
  cases oc with
  | normal =>
    simp only [VoiceAgent.generateResponse] at h ⊢
    rw [entersSpeaking_cons] at h
    simp only [entersSpeaking_append, Bool.or_eq_false_iff] at h
    have hg1 := doTransition_gate _ _ _ _ h.2.1.1
    simp only [apply_ite Prod.fst, apply_ite VoiceAgent.audio,
      apply_ite AudioController.enabled, runStream_audio, hg1, ite_self]
  | thrownAbort =>
    simp only [VoiceAgent.generateResponse] at h ⊢
    rw [entersSpeaking_cons] at h
    simp only [entersSpeaking_append, Bool.or_eq_false_iff] at h
    have hg1 := doTransition_gate _ _ _ _ h.2.1.1
    simp only [runStream_audio, hg1]
  | thrownError =>
    simp only [VoiceAgent.generateResponse] at h ⊢
    rw [entersSpeaking_cons] at h
    simp only [entersSpeaking_append, Bool.or_eq_false_iff] at h
    have hg1 := doTransition_gate _ _ _ _ h.2.1.1
    have hg3 := doTransition_gate _ _ _ _ h.2.2
    simp only [hg3, runStream_audio, hg1]

/-- Specialization: doTransition toward LISTENING leaves the gate bit. -/
theorem doTransition_gate_LISTENING (va : VoiceAgent) (now : Int) (r : Option String) :
    (va.doTransition AgentState.LISTENING now r).1.audio.enabled = va.audio.enabled :=
  doTransition_gate va _ now r (doTransition_entersSpeaking va _ now r (by decide))

/-- Specialization: doTransition toward THINKING leaves the gate bit. -/
theorem doTransition_gate_THINKING (va : VoiceAgent) (now : Int) (r : Option String) :
    (va.doTransition AgentState.THINKING now r).1.audio.enabled = va.audio.enabled :=
  doTransition_gate va _ now r (doTransition_entersSpeaking va _ now r (by decide))

/-- Specialization of the SPEAKING-free announcement for LISTENING. -/
theorem doTransition_entersSpeaking_LISTENING (va : VoiceAgent) (now : Int)
    (r : Option String) :
    entersSpeaking (va.doTransition AgentState.LISTENING now r).2 = false :=
  doTransition_entersSpeaking va _ now r (by decide)

/-- Specialization of the SPEAKING-free announcement for THINKING. -/
theorem doTransition_entersSpeaking_THINKING (va : VoiceAgent) (now : Int)
    (r : Option String) :
    entersSpeaking (va.doTransition AgentState.THINKING now r).2 = false :=
  doTransition_entersSpeaking va _ now r (by decide)

/-- Specialization of the SPEAKING-free announcement for INTERRUPTED. -/
theorem doTransition_entersSpeaking_INTERRUPTED (va : VoiceAgent) (now : Int)
    (r : Option String) :
    entersSpeaking (va.doTransition AgentState.INTERRUPTED now r).2 = false :=
  doTransition_entersSpeaking va _ now r (by decide)

/-- stopImmediately closes the gate. -/
theorem stopImmediately_enabled (a : AudioController) (now : Int) :
    (a.stopImmediately now).1.enabled = false := by
  unfold AudioController.stopImmediately AudioController.clearBuffer
    AudioController.disable
  by_cases h : now - a.lastClearTime < 50 <;> simp [h]

/-- stopImmediately only ever writes clear commands. -/
theorem stopImmediately_mediaFree (a : AudioController) (now : Int) :
    mediaFree ((a.stopImmediately now).2.map Effect.twilio) = true := by
  unfold AudioController.stopImmediately AudioController.clearBuffer
    AudioController.disable
  by_cases h : now - a.lastClearTime < 50 <;>
    simp [h, mediaFree, effectIsMedia]

/-- Twilio frames never announce SPEAKING. -/
theorem twilioMap_entersSpeaking (frames : List TwilioFrame) :
    entersSpeaking (frames.map Effect.twilio) = false := by
  induction frames with
  | nil => rfl
  | cons f rest ih =>
    simp [entersSpeaking, List.any_cons, effectIsSpeakingSet]

/-- The interruption path always ends with the gate closed. -/
theorem handleInterruption_audio (va : VoiceAgent) (now : Int) :
    (va.handleInterruption now).1.audio.enabled = false := by
  simp only [VoiceAgent.handleInterruption]
  simp only [doTransition_gate_LISTENING, apply_ite Prod.fst,
    apply_ite VoiceAgent.audio, apply_ite AudioController.enabled, ite_self,
    stopImmediately_enabled]

/-- The interruption path writes no media frame. -/
theorem handleInterruption_mediaFree (va : VoiceAgent) (now : Int) :
    mediaFree (va.handleInterruption now).2 = true := by
  simp only [VoiceAgent.handleInterruption]
  simp only [mediaFree_append, mediaFree_cons, mediaFree_nil,
    doTransition_mediaFree, stopImmediately_mediaFree, effectIsMedia,
    apply_ite Prod.snd, apply_ite mediaFree, ite_self, Bool.not_false,
    Bool.and_true, Bool.true_and, Bool.and_self]

/-- The interruption path never announces SPEAKING. -/
theorem handleInterruption_entersSpeaking (va : VoiceAgent) (now : Int) :
    entersSpeaking (va.handleInterruption now).2 = false := by
  simp only [VoiceAgent.handleInterruption]
  simp only [entersSpeaking_append, entersSpeaking_cons, entersSpeaking_nil,
    doTransition_entersSpeaking_INTERRUPTED, doTransition_entersSpeaking_LISTENING,
    twilioMap_entersSpeaking, effectIsSpeakingSet,
    apply_ite Prod.snd, apply_ite entersSpeaking, ite_self, Bool.or_self,
    Bool.or_false, Bool.false_or]

/-- handleTranscript writes no media frame whatever the state: its outbound
traffic is clears, TTS commands and state announcements. -/
theorem handleTranscript_mediaFree (va : VoiceAgent) (t : String)
    (sid : Option Nat) (now : Int) (chunks : List LLMChunk) (oc : LLMOutcome) :
    mediaFree (va.handleTranscript t sid now chunks oc).2 = true := by
  simp only [VoiceAgent.handleTranscript]
  by_cases hc : va.conferenceSession = true
  · simp [hc, mediaFree, effectIsMedia]
  · by_cases hsp : va.stateMachine.currentState = AgentState.SPEAKING
    · simp only [hc, hsp, Bool.false_eq_true, if_false, if_true, ite_true, ite_false]
      simp [mediaFree_append, handleInterruption_mediaFree,
        doTransition_mediaFree, generateResponse_mediaFree, hc]
    · by_cases hl : va.stateMachine.currentState = AgentState.LISTENING
      · simp only [hc, hsp, hl, Bool.false_eq_true, if_false, if_true, ite_true, ite_false]
        simp [mediaFree_append, doTransition_mediaFree, generateResponse_mediaFree, hc]
      · simp [hc, hsp, hl, mediaFree, effectIsMedia]

/-- If the gate is closed and handleTranscript never announces SPEAKING, the
gate is still closed afterwards. -/
theorem handleTranscript_gate (va : VoiceAgent) (t : String) (sid : Option Nat)
    (now : Int) (chunks : List LLMChunk) (oc : LLMOutcome)
    (hdis : va.audio.enabled = false)
    (hns : entersSpeaking (va.handleTranscript t sid now chunks oc).2 = false) :
    (va.handleTranscript t sid now chunks oc).1.audio.enabled = false := by
  simp only [VoiceAgent.handleTranscript] at hns ⊢
  by_cases hc : va.conferenceSession = true
  · simpa [hc] using hdis
  · by_cases hsp : va.stateMachine.currentState = AgentState.SPEAKING
    · simp only [hc, hsp, Bool.false_eq_true, if_false, if_true, ite_true, ite_false] at hns ⊢
      simp only [entersSpeaking_append, Bool.or_eq_false_iff] at hns
      have hgr := generateResponse_gate _ _ _ _ hns.2
      simp only [hgr, doTransition_gate_THINKING, handleInterruption_audio]
    · by_cases hl : va.stateMachine.currentState = AgentState.LISTENING
      · simp [hc, hl, entersSpeaking_append, Bool.or_eq_false_iff] at hns ⊢
        have hgr := generateResponse_gate _ _ _ _ hns.2
        simp only [hgr, doTransition_gate_THINKING]
        exact hdis
      · simpa [hc, hsp, hl] using hdis

/-- One event processed from a closed-gate state writes no media frame. -/
theorem step_mediaFree (va : VoiceAgent) (t : Int) (e : AgentEvent)
    (hdis : va.audio.enabled = false) :
    mediaFree (va.step t e).2 = true := by
  cases e with
  | transcriptEvt text sid chunks oc =>
    exact handleTranscript_mediaFree va text sid t chunks oc
  | ttsAudio p =>
    simp [VoiceAgent.step, VoiceAgent.handleTTSAudio, AudioController.sendAudio,
      hdis, mediaFree]
  | ttsFlushed =>
    simp only [VoiceAgent.step, VoiceAgent.handleTTSFlushed]
    simp [mediaFree_append, mediaFree_cons, mediaFree_nil, doTransition_mediaFree,
      effectIsMedia, apply_ite Prod.snd, apply_ite mediaFree, ite_self]

/-- One event processed from a closed-gate state that does not announce
SPEAKING leaves the gate closed. -/
theorem step_gate (va : VoiceAgent) (t : Int) (e : AgentEvent)
    (hdis : va.audio.enabled = false)
    (hns : entersSpeaking (va.step t e).2 = false) :
    (va.step t e).1.audio.enabled = false := by
  cases e with
  | transcriptEvt text sid chunks oc =>
    exact handleTranscript_gate va text sid t chunks oc hdis hns
  | ttsAudio p =>
    simp [VoiceAgent.step, VoiceAgent.handleTTSAudio, AudioController.sendAudio, hdis]
  | ttsFlushed =>
    simp [VoiceAgent.step, VoiceAgent.handleTTSFlushed, AudioController.disable]

/-- Master invariant: from any state with the gate closed, no outbound media
frame is written before the next entry into SPEAKING, over any event
sequence. -/
theorem processEvents_noMedia (evs : List (Int × AgentEvent)) : ∀ (va : VoiceAgent),
    va.audio.enabled = false →
    noMediaBeforeSpeaking (VoiceAgent.processEvents va evs).2 = true := by
  induction evs with
  | nil =>
    intro va _
    simp [VoiceAgent.processEvents, noMediaBeforeSpeaking]
  | cons p rest ih =>
    intro va hdis
    obtain ⟨t, e⟩ := p
    simp only [VoiceAgent.processEvents]
    apply noMediaBeforeSpeaking_append _ _ (step_mediaFree va t e hdis)
    cases hsp : entersSpeaking (va.step t e).2
    · exact Or.inr (ih _ (step_gate va t e hdis hsp))
    · exact Or.inl rfl

/-- After a successful interruption from SPEAKING, the agent is LISTENING. -/
theorem handleInterruption_state (va : VoiceAgent) (now : Int)
    (hsp : va.stateMachine.currentState = AgentState.SPEAKING) :
    (va.handleInterruption now).1.stateMachine.currentState =
      AgentState.LISTENING := by
  obtain ⟨⟨st, hist⟩, ⟨en, lc⟩, conv, ab, cf⟩ := va
  dsimp only at hsp
  subst hsp
  by_cases hnc : now - lc < 50 <;>
    cases ab <;>
      simp [VoiceAgent.handleInterruption, VoiceAgent.doTransition,
        VoiceAgentStateMachine.transition, VoiceAgentStateMachine.canTransitionTo,
        validTransitions, AudioController.stopImmediately,
        AudioController.clearBuffer, AudioController.disable, hnc]

/-- C5 counterexample: at a concrete SPEAKING agent with a live abort
controller and an old clear timestamp, the effect trace of the interruption
path leads with the transition to INTERRUPTED and ends with the transition to
LISTENING; the claim instead places both state changes after the gate, clear,
cancel and TTS-clear effects, so the two traces differ. -/
theorem voiceAgent_interruption_order_counterexample :
    (VoiceAgent.handleInterruption
      ⟨⟨AgentState.SPEAKING, []⟩, ⟨true, 0⟩,
        ⟨[], "Sure, let me check", false, none, none⟩, true, false⟩ 1000).2 =
      [Effect.stateSet AgentState.INTERRUPTED, Effect.gateDisabled,
       Effect.twilio TwilioFrame.clear, Effect.twilio TwilioFrame.clear,
       Effect.twilio TwilioFrame.clear, Effect.llmAbort, Effect.ttsClear,
       Effect.stateSet AgentState.LISTENING] ∧
    ([Effect.stateSet AgentState.INTERRUPTED, Effect.gateDisabled,
      Effect.twilio TwilioFrame.clear, Effect.twilio TwilioFrame.clear,
      Effect.twilio TwilioFrame.clear, Effect.llmAbort, Effect.ttsClear,
      Effect.stateSet AgentState.LISTENING] ≠
     [Effect.gateDisabled, Effect.twilio TwilioFrame.clear,
      Effect.twilio TwilioFrame.clear, Effect.twilio TwilioFrame.clear,
      Effect.llmAbort, Effect.ttsClear, Effect.stateSet AgentState.INTERRUPTED,
      Effect.stateSet AgentState.LISTENING]) := by
  refine ⟨?_, ?_⟩ <;> decide

/-- C5 amended: for an interruption fired while SPEAKING with a live LLM
cancellation scope and the last buffer clear at least 50 ms old, the
externally observed effect sequence is exactly: state set to INTERRUPTED,
gate disabled, clear-downstream (three clear commands), LLM cancellation, TTS
clear, state set to LISTENING; afterwards the gate is closed, the state is
LISTENING, and over any subsequent event sequence no outbound media frame is
emitted before the next entry into SPEAKING. -/
theorem voiceAgent_interruption_effect_order (va : VoiceAgent) (now : Int)
    (evs : List (Int × AgentEvent))
    (hsp : va.stateMachine.currentState = AgentState.SPEAKING)
    (habort : va.abortController = true)
    (hclear : 50 ≤ now - va.audio.lastClearTime) :
    (va.handleInterruption now).2 =
      [Effect.stateSet AgentState.INTERRUPTED, Effect.gateDisabled,
       Effect.twilio TwilioFrame.clear, Effect.twilio TwilioFrame.clear,
       Effect.twilio TwilioFrame.clear, Effect.llmAbort, Effect.ttsClear,
       Effect.stateSet AgentState.LISTENING] ∧
    (va.handleInterruption now).1.audio.enabled = false ∧
    (va.handleInterruption now).1.stateMachine.currentState =
      AgentState.LISTENING ∧
    noMediaBeforeSpeaking
      (VoiceAgent.processEvents (va.handleInterruption now).1 evs).2 = true := by
  refine ⟨?_, handleInterruption_audio va now, handleInterruption_state va now hsp,
    processEvents_noMedia evs _ (handleInterruption_audio va now)⟩
  obtain ⟨⟨st, hist⟩, ⟨en, lc⟩, conv, ab, cf⟩ := va
  dsimp only at hsp habort hclear
  subst hsp
  subst habort
  have hnc : ¬ (now - lc < 50) := by omega
  simp [VoiceAgent.handleInterruption, VoiceAgent.doTransition,
    VoiceAgentStateMachine.transition, VoiceAgentStateMachine.canTransitionTo,
    validTransitions, AudioController.stopImmediately,
    AudioController.clearBuffer, AudioController.disable, hnc]

/-- C5 witness: the amended ordering at a concrete SPEAKING agent, followed
by a TTS frame event arriving after the interruption: no media goes out. -/
theorem voiceAgent_interruption_effect_order_witness :
    (VoiceAgent.handleInterruption
      ⟨⟨AgentState.SPEAKING, []⟩, ⟨true, 100⟩,
        ⟨[], "Sure, let me check the calendar for", false, none, none⟩,
        true, false⟩ 2000).2 =
      [Effect.stateSet AgentState.INTERRUPTED, Effect.gateDisabled,
       Effect.twilio TwilioFrame.clear, Effect.twilio TwilioFrame.clear,
       Effect.twilio TwilioFrame.clear, Effect.llmAbort, Effect.ttsClear,
       Effect.stateSet AgentState.LISTENING] ∧
    (VoiceAgent.handleInterruption
      ⟨⟨AgentState.SPEAKING, []⟩, ⟨true, 100⟩,
        ⟨[], "Sure, let me check the calendar for", false, none, none⟩,
        true, false⟩ 2000).1.audio.enabled = false ∧
    (VoiceAgent.handleInterruption
      ⟨⟨AgentState.SPEAKING, []⟩, ⟨true, 100⟩,
        ⟨[], "Sure, let me check the calendar for", false, none, none⟩,
        true, false⟩ 2000).1.stateMachine.currentState = AgentState.LISTENING ∧
    noMediaBeforeSpeaking
      (VoiceAgent.processEvents
        (VoiceAgent.handleInterruption
          ⟨⟨AgentState.SPEAKING, []⟩, ⟨true, 100⟩,
            ⟨[], "Sure, let me check the calendar for", false, none, none⟩,
            true, false⟩ 2000).1
        [(2050, AgentEvent.ttsAudio "dGVzdA==")]).2 = true :=
  voiceAgent_interruption_effect_order
    ⟨⟨AgentState.SPEAKING, []⟩, ⟨true, 100⟩,
      ⟨[], "Sure, let me check the calendar for", false, none, none⟩,
      true, false⟩ 2000 [(2050, AgentEvent.ttsAudio "dGVzdA==")]
    rfl rfl (by decide)

/-- C4: for a solo (non-conference) session, a final transcript during
SPEAKING runs the interruption path first, then the normal processing path; a
transcript during LISTENING runs only the normal path; in any other state the
transcript is dropped with a log and the agent (conversation and state
machine included) is unchanged. The normal path appends the user message and
opens a new LLM generation. -/
theorem voiceAgent_handleTranscript_dispatch (va : VoiceAgent) (t : String)
    (sid : Option Nat) (now : Int) (chunks : List LLMChunk) (oc : LLMOutcome)
    (hsolo : va.conferenceSession = false) :
    (va.handleTranscript t sid now chunks oc =
      if va.stateMachine.currentState = AgentState.SPEAKING then
        (((va.handleInterruption now).1.normalProcess t sid now chunks oc).1,
          (va.handleInterruption now).2 ++
            ((va.handleInterruption now).1.normalProcess t sid now chunks oc).2)
      else if va.stateMachine.currentState = AgentState.LISTENING then
        va.normalProcess t sid now chunks oc
      else (va, [Effect.logDrop t])) ∧
    Effect.llmStreamStart ∈ (va.normalProcess t sid now chunks oc).2 ∧
    (va.conversation.addUserMessageWithId t sid).messages <+:
      (va.normalProcess t sid now chunks oc).1.conversation.messages := by
  refine ⟨?_, ?_, ?_⟩
  · by_cases hsp : va.stateMachine.currentState = AgentState.SPEAKING
    · simp [VoiceAgent.handleTranscript, VoiceAgent.normalProcess, hsolo, hsp]
    · by_cases hl : va.stateMachine.currentState = AgentState.LISTENING
      · simp [VoiceAgent.handleTranscript, VoiceAgent.normalProcess, hsolo, hsp, hl]
      · simp [VoiceAgent.handleTranscript, hsolo, hsp, hl]
  · simp only [VoiceAgent.normalProcess]
    exact List.mem_append_right _ (generateResponse_streamStart _ _ _ _)
  · simp only [VoiceAgent.normalProcess]
    have hpre := generateResponse_messages
      (VoiceAgent.doTransition
        { va with conversation := va.conversation.addUserMessageWithId t sid }
        AgentState.THINKING now (some "Processing user input")).1 now chunks oc
    simpa [doTransition_conversation] using hpre

/-- C4 witness: a concrete LISTENING solo agent receiving the transcript. -/
theorem voiceAgent_handleTranscript_dispatch_witness :
    ((⟨⟨AgentState.LISTENING, []⟩, ⟨false, 0⟩, ConversationManager.empty, false,
        false⟩ : VoiceAgent).handleTranscript "Hi there" none 10
        [LLMChunk.textDelta "Hello!"] LLMOutcome.normal =
      if (⟨⟨AgentState.LISTENING, []⟩, ⟨false, 0⟩, ConversationManager.empty,
          false, false⟩ : VoiceAgent).stateMachine.currentState =
          AgentState.SPEAKING then
        ((((⟨⟨AgentState.LISTENING, []⟩, ⟨false, 0⟩, ConversationManager.empty,
            false, false⟩ : VoiceAgent).handleInterruption 10).1.normalProcess
            "Hi there" none 10 [LLMChunk.textDelta "Hello!"] LLMOutcome.normal).1,
          ((⟨⟨AgentState.LISTENING, []⟩, ⟨false, 0⟩, ConversationManager.empty,
            false, false⟩ : VoiceAgent).handleInterruption 10).2 ++
            (((⟨⟨AgentState.LISTENING, []⟩, ⟨false, 0⟩, ConversationManager.empty,
              false, false⟩ : VoiceAgent).handleInterruption 10).1.normalProcess
              "Hi there" none 10 [LLMChunk.textDelta "Hello!"] LLMOutcome.normal).2)
      else if (⟨⟨AgentState.LISTENING, []⟩, ⟨false, 0⟩, ConversationManager.empty,
          false, false⟩ : VoiceAgent).stateMachine.currentState =
          AgentState.LISTENING then
        (⟨⟨AgentState.LISTENING, []⟩, ⟨false, 0⟩, ConversationManager.empty,
          false, false⟩ : VoiceAgent).normalProcess "Hi there" none 10
          [LLMChunk.textDelta "Hello!"] LLMOutcome.normal
      else (⟨⟨AgentState.LISTENING, []⟩, ⟨false, 0⟩, ConversationManager.empty,
          false, false⟩, [Effect.logDrop "Hi there"])) ∧
    Effect.llmStreamStart ∈
      ((⟨⟨AgentState.LISTENING, []⟩, ⟨false, 0⟩, ConversationManager.empty, false,
          false⟩ : VoiceAgent).normalProcess "Hi there" none 10
        [LLMChunk.textDelta "Hello!"] LLMOutcome.normal).2 ∧
    ((ConversationManager.empty).addUserMessageWithId "Hi there" none).messages <+:
      ((⟨⟨AgentState.LISTENING, []⟩, ⟨false, 0⟩, ConversationManager.empty, false,
          false⟩ : VoiceAgent).normalProcess "Hi there" none 10
        [LLMChunk.textDelta "Hello!"] LLMOutcome.normal).1.conversation.messages :=
  voiceAgent_handleTranscript_dispatch
    ⟨⟨AgentState.LISTENING, []⟩, ⟨false, 0⟩, ConversationManager.empty, false,
      false⟩ "Hi there" none 10 [LLMChunk.textDelta "Hello!"] LLMOutcome.normal rfl

/-! ## Response gatekeeper (shouldAssistantRespond, part_006 lines 27 to 72),
audio router (src/src/core/AudioRouter.ts) and conference session
(src/src/core/ConferenceSession.ts) -/

/-- The decision object of the gatekeeper (responseDecisionSchema): whether
the assistant should respond, the reasoning, and a confidence in [0, 1]. -/
structure ResponseDecision where
  shouldRespond : Bool
  reasoning : String
  confidence : ℚ
deriving DecidableEq, Repr

/-- shouldAssistantRespond (part_006 lines 27 to 72). The generateObject call
against the language service is external; its outcome is the explicit
advisorOutcome parameter — ok with the structured decision the model
produced, or error when the call throws. The conversation history and the
last speaker only shape the prompt; the catch branch defaults to silent with
confidence 0. -/
def shouldAssistantRespond (conversationHistory : List Message)
    (lastSpeaker : Speaker)
    (advisorOutcome : Except String ResponseDecision) : ResponseDecision :=
  match advisorOutcome with
  | .ok decision => decision
  | .error _ => ⟨false, "Error in decision-making, defaulting to silent", 0⟩

/-- The decision record returned by AudioRouter.route. -/
structure AudioRoutingDecision where
  jordanShouldRespond : Bool
  reasoning : String
deriving DecidableEq, Repr

/-- AudioRouter.route (AudioRouter.ts lines 26 to 47): a thin wrapper that
consults the gatekeeper and repackages its decision. -/
def AudioRouter.route (speaker : Speaker) (transcript : String)
    (conversationHistory : List Message)
    (advisorOutcome : Except String ResponseDecision) : AudioRoutingDecision :=
  let gatekeeperDecision :=
    shouldAssistantRespond conversationHistory speaker advisorOutcome
  ⟨gatekeeperDecision.shouldRespond, gatekeeperDecision.reasoning⟩

/-- addAssistantMessage (ConversationManager.ts lines 104 to 123): pushes the
complete assistant message (logging only otherwise). -/
def ConversationManager.addAssistantMessage (c : ConversationManager)
    (message : Message) : ConversationManager :=
  { c with messages := c.messages ++ [message] }

/-- Effects observable at the conference session boundary: the gatekeeper
consultation (with the history it saw), the opening of a shared LLM
generation, the lazy creation of the shared TTS, text and flush sent to the
shared TTS (whose audio is fanned to both egress streams), and logs. -/
inductive ConfEffect
  | gatekeeperConsulted (history : List Message) (lastSpeaker : Speaker)
  | jordanLLMStart (prompt : List Message)
  | ttsCreated
  | ttsText (text : String)
  | ttsFlush
  | logSilent (reasoning : String)
  | logInactive
deriving DecidableEq, Repr

/-- The mutable state of class ConferenceSession relevant to the claims: the
shared conversation (conference mode enabled at construction), the active
flag, the presence of the two participant agents, of the LLM agent and of
the lazily created shared TTS connection. The abort controller and the
direct websocket fanout carry no state the claims inspect. -/
structure ConferenceSession where
  conversation : ConversationManager
  isActive : Bool
  hasCallerAgent : Bool
  hasOwnerAgent : Bool
  hasLLMAgent : Bool
  hasTTS : Bool
deriving DecidableEq, Repr

/-- generateJordanResponse (ConferenceSession.ts lines 192 to 272): guarded
on the LLM agent and on both participants; lazily creates the shared TTS;
waits for it to become ready (oracle ttsReady — a timeout aborts); then
accumulates the text deltas of the shared LLM stream (oracle chunks) into
the partial message, promotes it, appends the full response message of the
SDK (oracle responseMsg), and sends the accumulated text to the shared TTS
followed by a flush. -/
def ConferenceSession.generateJordanResponse (cs : ConferenceSession)
    (ttsReady : Bool) (chunks : List String) (responseMsg : Message) :
    ConferenceSession × List ConfEffect :=
  if ¬ cs.hasLLMAgent then (cs, [])
  else if ¬ (cs.hasCallerAgent ∧ cs.hasOwnerAgent) then (cs, [])
  else
    let setupFx : List ConfEffect :=
      if cs.hasTTS then [] else [ConfEffect.ttsCreated]
    let cs1 := { cs with hasTTS := true }
    if ¬ ttsReady then (cs1, setupFx)
    else
      let fullResponse := String.join chunks
      let conv1 := chunks.foldl (fun c t => c.appendToAssistantMessage t)
        (cs1.conversation.startAssistantMessage)
      let conv2 := (conv1.completeAssistantMessage).addAssistantMessage responseMsg
      ({ cs1 with conversation := conv2 },
        setupFx ++ [ConfEffect.jordanLLMStart cs1.conversation.messages,
          ConfEffect.ttsText fullResponse, ConfEffect.ttsFlush])

/-- onTranscript (ConferenceSession.ts lines 159 to 187): an inactive session
drops the transcript with a warning; otherwise the user message is appended
to the shared conversation first, the gatekeeper is consulted through the
router on the post-append history, and only a positive decision runs the
shared generation — a negative one only logs. -/
def ConferenceSession.onTranscript (cs : ConferenceSession) (speaker : Speaker)
    (transcript : String) (advisorOutcome : Except String ResponseDecision)
    (ttsReady : Bool) (chunks : List String) (responseMsg : Message) :
    ConferenceSession × List ConfEffect × Option AudioRoutingDecision :=
  if ¬ cs.isActive then (cs, [ConfEffect.logInactive], none)
  else
    let conv1 := cs.conversation.addUserMessageWithSpeaker transcript speaker
    let cs1 := { cs with conversation := conv1 }
    let decision := AudioRouter.route speaker transcript conv1.messages
      advisorOutcome
    let consultFx := [ConfEffect.gatekeeperConsulted conv1.messages speaker]
    if decision.jordanShouldRespond then
      let r := cs1.generateJordanResponse ttsReady chunks responseMsg
      (r.1, consultFx ++ r.2, some decision)
    else
      (cs1, consultFx ++ [ConfEffect.logSilent decision.reasoning],
        some decision)

/-- C9: on advisor failure the gatekeeper defaults to silent with confidence
0; and for any transcript on an active conference whose decision is not to
respond, the user message has still been appended (exactly one, with its
speaker label) before the gatekeeper was consulted — the consulted history is
the post-append one — while the effect trace contains no LLM generation
start, no TTS creation, no TTS text and no TTS flush. -/
theorem conference_gatekeeper_silent_no_generation (cs : ConferenceSession)
    (speaker : Speaker) (transcript : String) (e : String)
    (adv : Except String ResponseDecision) (ttsReady : Bool)
    (chunks : List String) (responseMsg : Message)
    (hactive : cs.isActive = true)
    (hsilent : (shouldAssistantRespond
      ((cs.conversation.addUserMessageWithSpeaker transcript speaker).messages)
      speaker adv).shouldRespond = false) :
    shouldAssistantRespond
      ((cs.conversation.addUserMessageWithSpeaker transcript speaker).messages)
      speaker (Except.error e) =
      ⟨false, "Error in decision-making, defaulting to silent", 0⟩ ∧
    (cs.onTranscript speaker transcript adv ttsReady chunks
        responseMsg).1.conversation.messages =
      cs.conversation.messages ++
        [⟨"user", confContent cs.conversation.conferenceMode (some speaker)
          transcript⟩] ∧
    (cs.onTranscript speaker transcript adv ttsReady chunks responseMsg).2.1 =
      [ConfEffect.gatekeeperConsulted
        ((cs.conversation.addUserMessageWithSpeaker transcript
          speaker).messages) speaker,
       ConfEffect.logSilent (shouldAssistantRespond
         ((cs.conversation.addUserMessageWithSpeaker transcript
           speaker).messages) speaker adv).reasoning] := by
  simp only [ConversationManager.addUserMessageWithSpeaker] at hsilent
  refine ⟨rfl, ?_, ?_⟩ <;>
    simp [ConferenceSession.onTranscript, AudioRouter.route, hactive, hsilent,
      ConversationManager.addUserMessageWithSpeaker]

/-- C9 witness: an active, fully connected conference whose advisor throws;
the decision defaults to silent and nothing is generated. -/
theorem conference_gatekeeper_silent_no_generation_witness :
    shouldAssistantRespond
      (((confConversation0).addUserMessageWithSpeaker "ok thanks"
        Speaker.OWNER).messages) Speaker.OWNER (Except.error "boom") =
      ⟨false, "Error in decision-making, defaulting to silent", 0⟩ ∧
    ((⟨confConversation0, true, true, true, true, false⟩ :
        ConferenceSession).onTranscript Speaker.OWNER "ok thanks"
        (Except.error "boom") true [] ⟨"assistant", "hello"⟩).1.conversation.messages =
      confConversation0.messages ++
        [⟨"user", confContent confConversation0.conferenceMode
          (some Speaker.OWNER) "ok thanks"⟩] ∧
    ((⟨confConversation0, true, true, true, true, false⟩ :
        ConferenceSession).onTranscript Speaker.OWNER "ok thanks"
        (Except.error "boom") true [] ⟨"assistant", "hello"⟩).2.1 =
      [ConfEffect.gatekeeperConsulted
        (((confConversation0).addUserMessageWithSpeaker "ok thanks"
          Speaker.OWNER).messages) Speaker.OWNER,
       ConfEffect.logSilent (shouldAssistantRespond
         (((confConversation0).addUserMessageWithSpeaker "ok thanks"
           Speaker.OWNER).messages) Speaker.OWNER
         (Except.error "boom")).reasoning] :=
  conference_gatekeeper_silent_no_generation
    ⟨confConversation0, true, true, true, true, false⟩ Speaker.OWNER
    "ok thanks" "boom" (Except.error "boom") true [] ⟨"assistant", "hello"⟩
    rfl rfl

/-! ## Session registry and telephony start handling
(src/src/managers/SessionManager.ts, src/src/handlers/TwilioHandler.ts) -/

/-- Entry update of a string-keyed JavaScript Map: replace the value of an
existing key in place, otherwise append the binding. -/
def mapSet {α : Type} : List (String × α) → String → α → List (String × α)
  | [], k, v => [(k, v)]
  | (k0, v0) :: rest, k, v =>
    if k0 = k then (k, v) :: rest else (k0, v0) :: mapSet rest k v

/-- Lookup in a string-keyed JavaScript Map. -/
def mapGet {α : Type} : List (String × α) → String → Option α
  | [], _ => none
  | (k0, v0) :: rest, k => if k0 = k then some v0 else mapGet rest k

/-- A conference entry as tracked through the registry; the participant
agents are referenced by their stream ids (the arena-and-index view of the
object references held by ConferenceSession). -/
structure ConferenceRef where
  callerSid : Option String
  ownerSid : Option String
deriving DecidableEq, Repr

/-- The mutable state of class SessionManager: the streamSid-to-agent map
and the conferenceId-to-conference map. -/
structure SessionManager where
  agents : List (String × VoiceAgent)
  conferences : List (String × ConferenceRef)
deriving DecidableEq, Repr

/-- SessionManager.create (SessionManager.ts lines 18 to 21): Map.set, which
silently overwrites an existing entry under the same stream id. -/
def SessionManager.create (m : SessionManager) (streamSid : String)
    (agent : VoiceAgent) : SessionManager :=
  { m with agents := mapSet m.agents streamSid agent }

/-- SessionManager.getAgent (SessionManager.ts lines 36 to 38). -/
def SessionManager.getAgent (m : SessionManager) (streamSid : String) :
    Option VoiceAgent :=
  mapGet m.agents streamSid

/-- SessionManager.has (SessionManager.ts lines 74 to 76). -/
def SessionManager.has (m : SessionManager) (streamSid : String) : Bool :=
  (m.getAgent streamSid).isSome

/-- The fields of a telephony start frame that handleStart reads: the stream
id, the call id and the conference custom parameters. -/
structure StartMessage where
  streamSid : String
  callSid : String
  conferenceId : Option String
  role : Option String
deriving DecidableEq, Repr

/-- A VoiceAgent as freshly constructed by handleStart: state machine at IDLE
with an empty history, a disabled audio controller, an empty conversation, no
abort controller, no conference reference. -/
def freshVoiceAgent : VoiceAgent :=
  ⟨⟨AgentState.IDLE, []⟩, ⟨false, 0⟩, ConversationManager.empty, false, false⟩

/-- handleStart (TwilioHandler.ts lines 16 to 105) at the registry level. The
owner branch fires only when the custom parameters carry a conferenceId
together with role owner, and aborts when that conference is unknown; it
registers a fresh owner agent joined to the conference and initializes it.
Every other start — including one whose stream id is already registered,
which a caller reconnection produces — takes the solo path: a brand-new
VoiceAgent is constructed, registered under the stream id with Map.set
(overwriting any agent already registered under that id, without invoking its
cleanup), and initialized (IDLE to LISTENING). The Deepgram and LLM handles
created along the way are external and carry no registry state. -/
def handleStart (m : SessionManager) (msg : StartMessage) (now : Int) :
    SessionManager :=
  if msg.conferenceId.isSome ∧ msg.role = some "owner" then
    match msg.conferenceId with
    | none => m
    | some cid =>
      match mapGet m.conferences cid with
      | none => m
      | some conf =>
        let ownerAgent : VoiceAgent :=
          { freshVoiceAgent with conferenceSession := true }
        let ownerAgent1 := (ownerAgent.doTransition AgentState.LISTENING now
          (some "Call started")).1
        { m with
          agents := mapSet m.agents msg.streamSid ownerAgent1,
          conferences := mapSet m.conferences cid
            { conf with ownerSid := some msg.streamSid } }
  else
    let voiceAgent := freshVoiceAgent
    let voiceAgent1 := (voiceAgent.doTransition AgentState.LISTENING now
      (some "Call started")).1
    { m with agents := mapSet m.agents msg.streamSid voiceAgent1 }

/-- C1 evaluation at the failing input: the registry holds stream S1 with an
agent whose conversation has one message and whose state is THINKING; a
second start frame for S1 (role caller, as a reconnection delivers) arrives.
handleStart takes the solo path and Map.set replaces the entry with a
brand-new agent: the conversation message count drops from 1 to 0 (the claim
demands it be non-decreasing), the state machine restarts at LISTENING with a
fresh history (the claim demands the state be preserved), and no adapter swap
of an existing Session takes place — only the registry size is unchanged. -/
theorem sessionRegistry_duplicate_start_resets_session :
    ((handleStart
        ⟨[("S1", ⟨⟨AgentState.THINKING, []⟩, ⟨false, 0⟩,
          ⟨[⟨"user", "Hi there"⟩], "", false, none, none⟩, false, false⟩)], []⟩
        ⟨"S1", "CA2", none, some "caller"⟩ 500).getAgent "S1").map
      (fun a => (a.conversation.messages.length, a.stateMachine.currentState)) =
      some (0, AgentState.LISTENING) ∧
    ((⟨[("S1", ⟨⟨AgentState.THINKING, []⟩, ⟨false, 0⟩,
        ⟨[⟨"user", "Hi there"⟩], "", false, none, none⟩, false, false⟩)], []⟩ :
        SessionManager).getAgent "S1").map
      (fun a => (a.conversation.messages.length, a.stateMachine.currentState)) =
      some (1, AgentState.THINKING) ∧
    (handleStart
        ⟨[("S1", ⟨⟨AgentState.THINKING, []⟩, ⟨false, 0⟩,
          ⟨[⟨"user", "Hi there"⟩], "", false, none, none⟩, false, false⟩)], []⟩
        ⟨"S1", "CA2", none, some "caller"⟩ 500).agents.length = 1 := by
  refine ⟨?_, ?_, ?_⟩ <;> decide
